import Mathlib

/--
Verification of the DWD MOSMIX weather-forecast fetch automation script
(`weather_fetch_github.py`): a shallow embedding of its fetch pipeline
(`fetch_L_weather`, `fetch_S_weather`, `get_output_dir`) and of the scheduling
loop in `main`, together with theorems settling the specification claims.
-/
def weatherFetchDevelopment : Unit := ()

namespace WeatherFetch

/-- A wall-clock calendar timestamp: the six components used by the
`strftime` format `%Y_%m_%d_%H_%M_%S` in the script. -/
structure Wall where
  year : Nat
  month : Nat
  day : Nat
  hour : Nat
  minute : Nat
  second : Nat
deriving DecidableEq

/-- A (possibly timezone-aware) timestamp as held in the pandas `date` column:
a wall-clock value plus an optional UTC-offset annotation (in minutes).
`tz = none` is a timezone-naive timestamp. -/
structure PyDatetime where
  wall : Wall
  tz : Option Int
deriving DecidableEq

/-- One row of the retrieved forecast dataframe: its `date` column entry and
the remaining named columns, kept as opaque (name, raw value) pairs since the
script never computes with them. -/
structure Row where
  date : PyDatetime
  fields : List (String × String)
deriving DecidableEq

/-- Modelled from the spec: pandas `Series.dt.tz_localize(None)` (source line
`df['date'].dt.tz_localize(None)`) — pandas is an external collaborator; per
§4.2 step 2 it strips any UTC/offset annotation while preserving the
wall-clock value. -/
def tz_localize_none (d : PyDatetime) : PyDatetime :=
  { wall := d.wall, tz := none }

/-- How the script normalizes one row: replace its `date` by the
timezone-naive timestamp with the same wall-clock value. -/
def normalizeRow (r : Row) : Row :=
  { r with date := tz_localize_none r.date }

/-- The `wetterdienst` `Settings(ts_shape="wide", ts_humanize=True)` record
built by both fetch functions. -/
structure Settings where
  ts_shape : String
  ts_humanize : Bool
deriving DecidableEq

/-- The MOSMIX product selector `DwdMosmixType` (LARGE / SMALL). -/
inductive MosmixType
  | LARGE
  | SMALL
deriving DecidableEq

/-- The `DwdMosmixRequest` value built by the fetch functions: the requested
parameter names, the settings and the product type. -/
structure DwdMosmixRequest where
  parameter : List String
  settings : Settings
  mosmix_type : MosmixType
deriving DecidableEq

/-- The result of `request.filter_by_station_id(station_id=["X009"])`: the
request together with the station filter. The provider collaborator is
queried with this value. -/
structure StationsRequest where
  request : DwdMosmixRequest
  station_id : List String
deriving DecidableEq

/-- Python exceptions relevant to the script, as an enumerated type:
`keyboardInterrupt` is the operator interrupt caught in `main`;
`providerError` stands for a network/provider failure raised inside
`stations.values.query()`; `stopIteration` for `next()` on an empty
generator; `indexError` for `df.iloc[0]` on an empty dataframe;
`fileExistsError` for `os.makedirs` without `exist_ok`. -/
inductive PyExc
  | keyboardInterrupt
  | providerError
  | stopIteration
  | indexError
  | fileExistsError
deriving DecidableEq

/-- Zero-pad a numeral to two digits, as `strftime` `%m %d %H %M %S` do. -/
def pad2 (n : Nat) : String :=
  if n < 10 then "0" ++ toString n else toString n

/-- Zero-pad a numeral to four digits, as `strftime` `%Y` does. -/
def pad4 (n : Nat) : String :=
  if n < 10 then "000" ++ toString n
  else if n < 100 then "00" ++ toString n
  else if n < 1000 then "0" ++ toString n
  else toString n

/-- The `strftime` directives used by the script's format strings. -/
def strfCode (w : Wall) (c : Char) : String :=
  if c = 'Y' then pad4 w.year
  else if c = 'm' then pad2 w.month
  else if c = 'd' then pad2 w.day
  else if c = 'H' then pad2 w.hour
  else if c = 'M' then pad2 w.minute
  else if c = 'S' then pad2 w.second
  else String.mk ['%', c]

/-- Modelled from the spec: `datetime.strftime` (an external library call),
restricted to the `%`-directives appearing in the script; literal characters
are copied and `%X` directives are expanded per `strfCode`. -/
def strftimeAux (w : Wall) : List Char → List Char
  | [] => []
  | c :: rest =>
    if c = '%' then
      match rest with
      | [] => ['%']
      | c2 :: rest2 => (strfCode w c2).data ++ strftimeAux w rest2
    else c :: strftimeAux w rest

/-- `timestamp.strftime(fmt)` as used on the first row's `date`. -/
def strftime (fmt : String) (w : Wall) : String :=
  String.mk (strftimeAux w fmt.data)

/-- Filesystem paths are modelled as lists of path segments; `os.path.join`
as used by the script always joins a directory path with one relative
segment (a product-type name or a filename), which appends a segment. -/
def os_path_join (a : List String) (b : String) : List String :=
  a ++ [b]

/-- Render a segment path in the usual slash-separated form (used only for
the confirmation message the script prints). -/
def renderPath (p : List String) : String :=
  String.intercalate "/" p

/-- Insert a directory into the set (list) of existing directories if absent. -/
def insertDir (acc : List (List String)) (d : List String) : List (List String) :=
  if d ∈ acc then acc else acc ++ [d]

/-- `os.makedirs(path, exist_ok=...)` on a directory state `fs` (the set of
existing directories): raises `FileExistsError` when the directory already
exists and `exist_ok` is false, and otherwise creates the directory and all
missing parents (the prefixes of the segment path). -/
def os_makedirs (p : List String) (exist_ok : Bool) (fs : List (List String)) :
    Except PyExc (List (List String)) :=
  if p ∈ fs ∧ exist_ok = false then .error PyExc.fileExistsError
  else .ok (p.inits.foldl insertDir fs)

/-- `get_output_dir` from the script: join the base directory with the
product type, `os.makedirs(path, exist_ok=True)`, and return the path.
The directory state is threaded explicitly. -/
def get_output_dir (base : List String) (product_type : String)
    (fs : List (List String)) : Except PyExc (List String × List (List String)) :=
  match os_makedirs (os_path_join base product_type) true fs with
  | .error exc => .error exc
  | .ok fs' => .ok (os_path_join base product_type, fs')

/-- The observable outcome of one successful fetch cycle: the normalized
dataframe handed to `df.to_excel`, the resolved output path, the
header/index flags of the export call (`to_excel(path, index=False)` with
pandas' default `header=True`), the resulting directory state and the
printed confirmation message. -/
structure FetchOutcome where
  df : List Row
  path : List String
  header : Bool
  index : Bool
  fs : List (List String)
  msg : String
deriving DecidableEq

/-- `fetch_L_weather` from the script. The provider collaborator
(`next(stations.values.query())` followed by `.df.to_pandas()`) is an
external dependency, abstracted as the `query` argument returning either an
exception (network/provider failure, `StopIteration`) or the dataframe rows;
the directory state `fs` is threaded explicitly. Every step mirrors the
source: build settings/request/station filter, query, normalize the `date`
column, derive the filename from the first row (raising `IndexError` when
the dataframe is empty), resolve the output directory, and export. -/
def fetch_L_weather (query : StationsRequest → Except PyExc (List Row))
    (base : List String) (fs : List (List String)) : Except PyExc FetchOutcome :=
  let settings : Settings := { ts_shape := "wide", ts_humanize := true }
  let request : DwdMosmixRequest :=
    { parameter := ["radiation_global", "cloud_cover_between_2_to_7_km",
                    "cloud_cover_below_1000_ft", "FF", "TTT"],
      settings := settings, mosmix_type := MosmixType.LARGE }
  let stations : StationsRequest := { request := request, station_id := ["X009"] }
  match query stations with
  | .error exc => .error exc
  | .ok df =>
    let df' := df.map normalizeRow
    match df' with
    | [] => .error PyExc.indexError
    | r0 :: _ =>
      let filename := strftime "L_%Y_%m_%d_%H_%M_%S" r0.date.wall
      match get_output_dir base "MOSMIX-L" fs with
      | .error exc => .error exc
      | .ok (output_dir, fs') =>
        let path := os_path_join output_dir (filename ++ ".xlsx")
        .ok { df := df', path := path, header := true, index := false, fs := fs',
              msg := "[MOSMIX-L] Data saved to: " ++ renderPath path }

/-- `fetch_S_weather` from the script; the same hand-duplicated structure as
`fetch_L_weather` with the SMALL product type, the `S_` filename format and
the `MOSMIX-S` subdirectory. -/
def fetch_S_weather (query : StationsRequest → Except PyExc (List Row))
    (base : List String) (fs : List (List String)) : Except PyExc FetchOutcome :=
  let settings : Settings := { ts_shape := "wide", ts_humanize := true }
  let request : DwdMosmixRequest :=
    { parameter := ["radiation_global", "cloud_cover_between_2_to_7_km",
                    "cloud_cover_below_1000_ft", "FF", "TTT"],
      settings := settings, mosmix_type := MosmixType.SMALL }
  let stations : StationsRequest := { request := request, station_id := ["X009"] }
  match query stations with
  | .error exc => .error exc
  | .ok df =>
    let df' := df.map normalizeRow
    match df' with
    | [] => .error PyExc.indexError
    | r0 :: _ =>
      let filename := strftime "S_%Y_%m_%d_%H_%M_%S" r0.date.wall
      match get_output_dir base "MOSMIX-S" fs with
      | .error exc => .error exc
      | .ok (output_dir, fs') =>
        let path := os_path_join output_dir (filename ++ ".xlsx")
        .ok { df := df', path := path, header := true, index := false, fs := fs',
              msg := "[MOSMIX-S] Data saved to: " ++ renderPath path }

/-- The data distinguishing the two hand-duplicated fetch functions: the
product-type selector, the `strftime` format (carrying the filename prefix)
and the output subdirectory. -/
structure ProductParams where
  mosmix_type : MosmixType
  fmt : String
  subdir : String
deriving DecidableEq

/-- The parameters of the MOSMIX-L fetch. -/
def paramsL : ProductParams :=
  { mosmix_type := MosmixType.LARGE, fmt := "L_%Y_%m_%d_%H_%M_%S", subdir := "MOSMIX-L" }

/-- The parameters of the MOSMIX-S fetch. -/
def paramsS : ProductParams :=
  { mosmix_type := MosmixType.SMALL, fmt := "S_%Y_%m_%d_%H_%M_%S", subdir := "MOSMIX-S" }

/-- The station-filtered request both fetch functions build: station
`"X009"`, the five fixed parameter names and the same settings, with the
given product type. -/
def mkStations (t : MosmixType) : StationsRequest :=
  { request :=
      { parameter := ["radiation_global", "cloud_cover_between_2_to_7_km",
                      "cloud_cover_below_1000_ft", "FF", "TTT"],
        settings := { ts_shape := "wide", ts_humanize := true },
        mosmix_type := t },
    station_id := ["X009"] }

/-- The single parametrized fetch cycle of which `fetch_L_weather` and
`fetch_S_weather` are the two instances. -/
def fetch_product (p : ProductParams) (query : StationsRequest → Except PyExc (List Row))
    (base : List String) (fs : List (List String)) : Except PyExc FetchOutcome :=
  match query (mkStations p.mosmix_type) with
  | .error exc => .error exc
  | .ok df =>
    let df' := df.map normalizeRow
    match df' with
    | [] => .error PyExc.indexError
    | r0 :: _ =>
      let filename := strftime p.fmt r0.date.wall
      match get_output_dir base p.subdir fs with
      | .error exc => .error exc
      | .ok (output_dir, fs') =>
        let path := os_path_join output_dir (filename ++ ".xlsx")
        .ok { df := df', path := path, header := true, index := false, fs := fs',
              msg := "[" ++ p.subdir ++ "] Data saved to: " ++ renderPath path }

/-- `df.to_excel(path, ...)` writes (and silently overwrites) the file at the
outcome's path in a file map from paths to (table, header flag, index flag). -/
def writeFile (fsys : List String → Option (List Row × Bool × Bool))
    (o : FetchOutcome) : List String → Option (List Row × Bool × Bool) :=
  fun p => if p = o.path then some (o.df, o.header, o.index) else fsys p

/-- Appending strings appends their character data. -/
theorem str_data_append (a b : String) : (a ++ b).data = a.data ++ b.data := rfl

/-- The character data of the MOSMIX-L format string. -/
theorem fmtL_data : "L_%Y_%m_%d_%H_%M_%S".data
    = ['L','_','%','Y','_','%','m','_','%','d','_','%','H','_','%','M','_','%','S'] := rfl

/-- The character data of the MOSMIX-S format string. -/
theorem fmtS_data : "S_%Y_%m_%d_%H_%M_%S".data
    = ['S','_','%','Y','_','%','m','_','%','d','_','%','H','_','%','M','_','%','S'] := rfl

/-- Evaluating `strftimeAux` on the MOSMIX-L format characters. -/
theorem strftimeAux_L (w : Wall) :
    strftimeAux w ['L','_','%','Y','_','%','m','_','%','d','_','%','H','_','%','M','_','%','S']
      = 'L' :: '_' :: ((pad4 w.year).data ++ '_' :: ((pad2 w.month).data ++ '_' ::
        ((pad2 w.day).data ++ '_' :: ((pad2 w.hour).data ++ '_' ::
        ((pad2 w.minute).data ++ '_' :: ((pad2 w.second).data ++ [])))))) := rfl

/-- Evaluating `strftimeAux` on the MOSMIX-S format characters. -/
theorem strftimeAux_S (w : Wall) :
    strftimeAux w ['S','_','%','Y','_','%','m','_','%','d','_','%','H','_','%','M','_','%','S']
      = 'S' :: '_' :: ((pad4 w.year).data ++ '_' :: ((pad2 w.month).data ++ '_' ::
        ((pad2 w.day).data ++ '_' :: ((pad2 w.hour).data ++ '_' ::
        ((pad2 w.minute).data ++ '_' :: ((pad2 w.second).data ++ [])))))) := rfl

/-- The MOSMIX-L filename format expands to the zero-padded timestamp
components joined by underscores. -/
theorem strftime_L_spec (w : Wall) :
    strftime "L_%Y_%m_%d_%H_%M_%S" w
      = "L_" ++ pad4 w.year ++ "_" ++ pad2 w.month ++ "_" ++ pad2 w.day ++ "_"
        ++ pad2 w.hour ++ "_" ++ pad2 w.minute ++ "_" ++ pad2 w.second := by
  apply String.ext
  show strftimeAux w ("L_%Y_%m_%d_%H_%M_%S".data) = _
  rw [fmtL_data, strftimeAux_L]
  simp [str_data_append, List.append_assoc]

/-- The MOSMIX-S filename format expands to the zero-padded timestamp
components joined by underscores. -/
theorem strftime_S_spec (w : Wall) :
    strftime "S_%Y_%m_%d_%H_%M_%S" w
      = "S_" ++ pad4 w.year ++ "_" ++ pad2 w.month ++ "_" ++ pad2 w.day ++ "_"
        ++ pad2 w.hour ++ "_" ++ pad2 w.minute ++ "_" ++ pad2 w.second := by
  apply String.ext
  show strftimeAux w ("S_%Y_%m_%d_%H_%M_%S".data) = _
  rw [fmtS_data, strftimeAux_S]
  simp [str_data_append, List.append_assoc]

/-- With `exist_ok=True`, `get_output_dir` always succeeds and returns the
joined path together with the updated directory state. -/
theorem get_output_dir_eq (base : List String) (pt : String) (fs : List (List String)) :
    get_output_dir base pt fs
      = .ok (base ++ [pt], ((base ++ [pt]).inits.foldl insertDir fs)) := by
  simp [get_output_dir, os_makedirs, os_path_join]

/-- `fetch_L_weather` is the parametrized fetch cycle at the MOSMIX-L
parameters. -/
theorem fetch_L_eq_product (q : StationsRequest → Except PyExc (List Row))
    (base : List String) (fs : List (List String)) :
    fetch_L_weather q base fs = fetch_product paramsL q base fs := rfl

/-- `fetch_S_weather` is the parametrized fetch cycle at the MOSMIX-S
parameters. -/
theorem fetch_S_eq_product (q : StationsRequest → Except PyExc (List Row))
    (base : List String) (fs : List (List String)) :
    fetch_S_weather q base fs = fetch_product paramsS q base fs := rfl

/-- Full characterization of a successful fetch cycle: when the provider
returns a non-empty dataset, the cycle succeeds, exports the normalized
dataset with header and without index to the path derived from the first
row's timestamp under the product's subdirectory. -/
theorem fetch_product_ok (p : ProductParams)
    (q : StationsRequest → Except PyExc (List Row))
    (base : List String) (fs : List (List String)) (r0 : Row) (rest : List Row)
    (hq : q (mkStations p.mosmix_type) = .ok (r0 :: rest)) :
    fetch_product p q base fs
      = .ok { df := (r0 :: rest).map normalizeRow,
              path := base ++ [p.subdir, strftime p.fmt r0.date.wall ++ ".xlsx"],
              header := true, index := false,
              fs := (base ++ [p.subdir]).inits.foldl insertDir fs,
              msg := "[" ++ p.subdir ++ "] Data saved to: "
                ++ renderPath (base ++ [p.subdir, strftime p.fmt r0.date.wall ++ ".xlsx"]) } := by
  rw [fetch_product, hq]
  simp only [List.map_cons, get_output_dir_eq, os_path_join, List.append_assoc,
    List.cons_append, List.nil_append]
  rfl

/-- A provider failure propagates out of the parametrized fetch cycle. -/
theorem fetch_product_err (p : ProductParams)
    (q : StationsRequest → Except PyExc (List Row))
    (base : List String) (fs : List (List String)) (exc : PyExc)
    (hq : q (mkStations p.mosmix_type) = .error exc) :
    fetch_product p q base fs = .error exc := by
  rw [fetch_product, hq]

/-- A zero-row dataset makes the parametrized fetch cycle raise `IndexError`
at filename derivation; nothing is exported. -/
theorem fetch_product_empty (p : ProductParams)
    (q : StationsRequest → Except PyExc (List Row))
    (base : List String) (fs : List (List String))
    (hq : q (mkStations p.mosmix_type) = .ok ([] : List Row)) :
    fetch_product p q base fs = .error PyExc.indexError := by
  rw [fetch_product, hq]
  rfl

/-- Modelled from the spec: the scheduling state of §4.3 (the `schedule`
library the script uses is an external collaborator). A job invocation
record: the minute at which the job was invoked, the minute at which it
finished, and the job's identity. -/
structure InvRec where
  start : Nat
  fin : Nat
  jobId : Nat
deriving DecidableEq

/-- Modelled from the spec: a ScheduleEntry (§3) — `(interval,
next-due-time, job reference)`, owned by the Scheduler; times in minutes. -/
structure ScheduleEntry where
  interval : Nat
  nextDue : Nat
  jobId : Nat
deriving DecidableEq

/-- Modelled from the spec: the Scheduler's state — the current time in
minutes, the history of job invocations (newest first; a ghost trace for
stating temporal properties) and the entry table in registration order. -/
structure SchedState where
  now : Nat
  trace : List InvRec
  entries : List ScheduleEntry
deriving DecidableEq

/-- Modelled from the spec: `register` (§4.3) — `schedule.every(n).minutes.do(job)`
appends a ScheduleEntry with next-due-time = now + interval. -/
def register (interval jobId : Nat) (s : SchedState) : SchedState :=
  { s with entries := s.entries ++ [⟨interval, s.now + interval, jobId⟩] }

/-- Modelled from the spec: one `run_pending` scan (§4.3) — walk the entry
table in registration order; each entry whose next-due-time has passed is
invoked synchronously (its run takes `dur jobId` minutes and its outcome is
`beh jobId`), and its next-due-time is recomputed as run-completion time +
interval (drift-forward policy, §4.3). A job that raises aborts the scan and
propagates its exception (§7 places error containment in the ProductFetcher,
not in the Scheduler). Returns the advanced clock, the extended invocation
trace and the updated entry table. -/
def runPendingE (beh : Nat → Except PyExc Unit) (dur : Nat → Nat) :
    Nat → List InvRec → List ScheduleEntry →
      Except PyExc (Nat × List InvRec × List ScheduleEntry)
  | now, tr, [] => .ok (now, tr, [])
  | now, tr, e :: es =>
    if e.nextDue ≤ now then
      match beh e.jobId with
      | .error exc => .error exc
      | .ok _ =>
        match runPendingE beh dur (now + dur e.jobId)
            (⟨now, now + dur e.jobId, e.jobId⟩ :: tr) es with
        | .error exc => .error exc
        | .ok (n', tr', es') =>
          .ok (n', tr', ⟨e.interval, now + dur e.jobId + e.interval, e.jobId⟩ :: es')
    else
      match runPendingE beh dur now tr es with
      | .error exc => .error exc
      | .ok (n', tr', es') => .ok (n', tr', e :: es')

/-- The result of one iteration of `main`'s `while True` body: continue with
a new state, exit cleanly with a printed message (the `except
KeyboardInterrupt` arm), or terminate with an uncaught exception. -/
inductive IterResult
  | next (s : SchedState)
  | stop (msg : String)
  | crash (exc : PyExc)
deriving DecidableEq

/-- The stop message printed by `main` on `KeyboardInterrupt`. -/
def stopMessage : String := "\nScheduler stopped by user."

/-- One iteration of `main`'s loop: `schedule.run_pending()` then
`time.sleep(60)` (one minute). `intr` is true when the operator interrupt
arrives at the sleep boundary before this iteration. A `KeyboardInterrupt`
(from the sleep or from within a job) is caught by the `try`/`except` in
`main` and stops the loop cleanly; any other exception raised by a job is
not caught anywhere and terminates the process. -/
def loopIter (beh : Nat → Except PyExc Unit) (dur : Nat → Nat)
    (intr : Bool) (s : SchedState) : IterResult :=
  if intr then .stop stopMessage
  else
    match runPendingE beh dur s.now s.trace s.entries with
    | .ok (n, tr, es) => .next ⟨n + 1, tr, es⟩
    | .error PyExc.keyboardInterrupt => .stop stopMessage
    | .error exc => .crash exc

/-- The observable result of running `main`'s loop for a bounded number of
iterations: still running, stopped cleanly, or terminated by an uncaught
exception. -/
inductive LoopResult
  | running (s : SchedState)
  | stopped (msg : String)
  | crashed (exc : PyExc)
deriving DecidableEq

/-- `main`'s `while True: schedule.run_pending(); time.sleep(60)` wrapped in
`try ... except KeyboardInterrupt`, run for `fuel` iterations; `intr i` says
whether the operator interrupts before the iteration with fuel `i`. -/
def mainLoop (beh : Nat → Except PyExc Unit) (dur : Nat → Nat)
    (intr : Nat → Bool) : Nat → SchedState → LoopResult
  | 0, s => .running s
  | fuel + 1, s =>
    match loopIter beh dur (intr fuel) s with
    | .next s' => mainLoop beh dur intr fuel s'
    | .stop m => .stopped m
    | .crash exc => .crashed exc

/-- The job identity of `fetch_L_weather` in the schedule table. -/
def jobL : Nat := 0

/-- The job identity of `fetch_S_weather` in the schedule table. -/
def jobS : Nat := 1

/-- The schedule table `main` builds at startup (time 0):
`schedule.every(30).minutes.do(fetch_L_weather)` then
`schedule.every(15).minutes.do(fetch_S_weather)`. -/
def initSchedState : SchedState :=
  register 15 jobS (register 30 jobL ⟨0, [], []⟩)

/-- States reachable from `s` by iterations of `main`'s loop that neither
stop nor crash. -/
inductive Reachable (beh : Nat → Except PyExc Unit) (dur : Nat → Nat) :
    SchedState → SchedState → Prop
  | refl (s : SchedState) : Reachable beh dur s s
  | step {s t u : SchedState} : Reachable beh dur s t →
      loopIter beh dur false t = .next u → Reachable beh dur s u

/-- The invocation records of job `j`, newest first. -/
def recordsOf (j : Nat) (tr : List InvRec) : List InvRec :=
  tr.filter (fun r => r.jobId == j)

/-- The drift-forward gap relation at interval `iv`: the older invocation
`b` finished at least `iv` minutes before the newer invocation `a` started. -/
def gapRel (iv : Nat) (a b : InvRec) : Prop :=
  b.fin + iv ≤ a.start

instance (iv : Nat) : DecidableRel (gapRel iv) :=
  fun a b => inferInstanceAs (Decidable (b.fin + iv ≤ a.start))

/-- The per-entry scheduling invariant: prefixing the job's invocation
history with a virtual invocation at the entry's next-due-time, consecutive
invocations are always separated by at least the entry's interval measured
from the earlier one's completion. -/
def entryOK (e : ScheduleEntry) (tr : List InvRec) : Prop :=
  List.Chain' (gapRel e.interval)
    (⟨e.nextDue, e.nextDue, e.jobId⟩ :: recordsOf e.jobId tr)

instance (e : ScheduleEntry) (tr : List InvRec) : Decidable (entryOK e tr) :=
  inferInstanceAs (Decidable (List.Chain' _ _))

/-- The Scheduler invariant: entries carry pairwise-distinct jobs, and every
entry satisfies the drift-forward gap property against the trace. -/
def Inv (s : SchedState) : Prop :=
  (s.entries.map (fun e => e.jobId)).Nodup ∧ ∀ e ∈ s.entries, entryOK e s.trace

instance (s : SchedState) : Decidable (Inv s) :=
  inferInstanceAs (Decidable (_ ∧ _))

/-- Prepending a record of a different job leaves a job's history unchanged. -/
theorem recordsOf_cons_ne (j : Nat) (r : InvRec) (tr : List InvRec)
    (h : ¬ r.jobId = j) : recordsOf j (r :: tr) = recordsOf j tr := by
  simp [recordsOf, List.filter_cons, h]

/-- Prepending a record of the same job prepends it to the job's history. -/
theorem recordsOf_cons_eq (j : Nat) (r : InvRec) (tr : List InvRec)
    (h : r.jobId = j) : recordsOf j (r :: tr) = r :: recordsOf j tr := by
  simp [recordsOf, List.filter_cons, h]

/-- Transport `entryOK` along an equality of the job's history. -/
theorem entryOK_of_recordsOf_eq (e : ScheduleEntry) (tr tr' : List InvRec)
    (h : recordsOf e.jobId tr' = recordsOf e.jobId tr) (hok : entryOK e tr) :
    entryOK e tr' := by
  unfold entryOK at hok ⊢
  rw [h]
  exact hok

/-- Invariant preservation by one `run_pending` scan: a successful scan
keeps the (job, interval) table, only extends the histories of the jobs it
owns, and preserves the drift-forward gap property of every entry. -/
theorem runPendingE_inv (beh : Nat → Except PyExc Unit) (dur : Nat → Nat) :
    ∀ (es : List ScheduleEntry) (now : Nat) (tr : List InvRec),
      (es.map (fun e => e.jobId)).Nodup →
      (∀ e ∈ es, entryOK e tr) →
      ∀ res, runPendingE beh dur now tr es = .ok res →
        res.2.2.map (fun e => (e.jobId, e.interval))
            = es.map (fun e => (e.jobId, e.interval)) ∧
        (∀ j, j ∉ es.map (fun e => e.jobId) → recordsOf j res.2.1 = recordsOf j tr) ∧
        (∀ e ∈ res.2.2, entryOK e res.2.1) := by
  intro es
  induction es with
  | nil =>
    intro now tr _ _ res hres
    rw [runPendingE] at hres
    injection hres with h
    subst h
    simp
  | cons e es ih =>
    intro now tr hnd hok res hres
    rw [List.map_cons, List.nodup_cons] at hnd
    obtain ⟨hnotin, hnd'⟩ := hnd
    rw [runPendingE] at hres
    by_cases hdue : e.nextDue ≤ now
    · rw [if_pos hdue] at hres
      split at hres
      · exact (Except.noConfusion hres)
      · split at hres
        · exact (Except.noConfusion hres)
        · rename_i n1 tr1 es1 hrec
          injection hres with h
          subst h
          have hok' : ∀ e' ∈ es,
              entryOK e' (⟨now, now + dur e.jobId, e.jobId⟩ :: tr) := by
            intro e' he'
            have hne : ¬ e.jobId = e'.jobId := by
              intro hcontra
              apply hnotin
              rw [hcontra]
              exact List.mem_map_of_mem _ he'
            exact entryOK_of_recordsOf_eq e' tr _
              (recordsOf_cons_ne e'.jobId _ tr hne) (hok e' (List.mem_cons_of_mem _ he'))
          obtain ⟨hmap, hframe, hall⟩ := ih (now + dur e.jobId)
            (⟨now, now + dur e.jobId, e.jobId⟩ :: tr) hnd' hok' (n1, tr1, es1) hrec
          refine ⟨by simp [hmap], ?_, ?_⟩
          · intro j hj
            rw [List.map_cons, List.mem_cons] at hj
            push_neg at hj
            rw [hframe j hj.2]
            exact recordsOf_cons_ne j _ tr (fun hc => hj.1 hc.symm)
          · intro e' he'
            rcases List.mem_cons.mp he' with h1 | h1
            · subst h1
              have hrec1 : recordsOf e.jobId tr1
                  = (⟨now, now + dur e.jobId, e.jobId⟩ : InvRec) :: recordsOf e.jobId tr := by
                rw [hframe e.jobId hnotin]
                exact recordsOf_cons_eq e.jobId _ tr rfl
              show List.Chain' (gapRel e.interval)
                (⟨now + dur e.jobId + e.interval, now + dur e.jobId + e.interval, e.jobId⟩
                  :: recordsOf e.jobId tr1)
              rw [hrec1, List.chain'_cons']
              have he0 := hok e (List.mem_cons_self e es)
              rw [entryOK, List.chain'_cons'] at he0
              obtain ⟨hhead, htail⟩ := he0
              refine ⟨?_, ?_⟩
              · intro y hy
                simp only [List.head?_cons, Option.mem_def, Option.some.injEq] at hy
                subst hy
                exact Nat.le_refl _
              · rw [List.chain'_cons']
                refine ⟨?_, htail⟩
                intro y hy
                exact le_trans (hhead y hy) hdue
            · exact hall e' h1
    · rw [if_neg hdue] at hres
      split at hres
      · exact (Except.noConfusion hres)
      · rename_i n1 tr1 es1 hrec
        injection hres with h
        subst h
        obtain ⟨hmap, hframe, hall⟩ := ih now tr hnd'
          (fun e' he' => hok e' (List.mem_cons_of_mem _ he')) (n1, tr1, es1) hrec
        refine ⟨by simp [hmap], ?_, ?_⟩
        · intro j hj
          rw [List.map_cons, List.mem_cons] at hj
          push_neg at hj
          exact hframe j hj.2
        · intro e' he'
          rcases List.mem_cons.mp he' with h1 | h1
          · exact h1 ▸ entryOK_of_recordsOf_eq e tr tr1 (hframe e.jobId hnotin)
              (hok e (List.mem_cons_self e es))
          · exact hall e' h1

/-- A loop iteration that continues preserves the Scheduler invariant and
the (job, interval) table. -/
theorem loopIter_next_inv (beh : Nat → Except PyExc Unit) (dur : Nat → Nat)
    (s u : SchedState) (hInv : Inv s) (h : loopIter beh dur false s = .next u) :
    Inv u ∧ u.entries.map (fun e => (e.jobId, e.interval))
      = s.entries.map (fun e => (e.jobId, e.interval)) := by
  rw [loopIter, if_neg Bool.false_ne_true] at h
  split at h
  · rename_i n tr es hrec
    injection h with h
    subst h
    obtain ⟨hmap, hframe, hall⟩ :=
      runPendingE_inv beh dur s.entries s.now s.trace hInv.1 hInv.2 (n, tr, es) hrec
    refine ⟨⟨?_, hall⟩, hmap⟩
    have hjob : es.map (fun e => e.jobId) = s.entries.map (fun e => e.jobId) := by
      have h2 := congrArg (List.map Prod.fst) hmap
      simpa [List.map_map, Function.comp] using h2
    rw [show (SchedState.mk (n + 1) tr es).entries = es from rfl, hjob]
    exact hInv.1
  · exact (IterResult.noConfusion h)
  · exact (IterResult.noConfusion h)

/-- Every state reachable by non-stopping loop iterations keeps the
Scheduler invariant and the registered (job, interval) table. -/
theorem reachable_inv (beh : Nat → Except PyExc Unit) (dur : Nat → Nat)
    (s0 s : SchedState) (hInv : Inv s0) (h : Reachable beh dur s0 s) :
    Inv s ∧ s.entries.map (fun e => (e.jobId, e.interval))
      = s0.entries.map (fun e => (e.jobId, e.interval)) := by
  induction h with
  | refl => exact ⟨hInv, rfl⟩
  | step hreach hiter ih =>
    obtain ⟨hInv1, hmap1⟩ := ih
    obtain ⟨hInv2, hmap2⟩ := loopIter_next_inv beh dur _ _ hInv1 hiter
    exact ⟨hInv2, hmap2.trans hmap1⟩

/-- Directories already present survive `insertDir` folding. -/
theorem mem_foldl_insertDir_of_mem_acc (l : List (List String))
    (acc : List (List String)) (x : List String) (h : x ∈ acc) :
    x ∈ l.foldl insertDir acc := by
  induction l generalizing acc with
  | nil => exact h
  | cons d l ih =>
    rw [List.foldl_cons]
    apply ih
    unfold insertDir
    split
    · exact h
    · exact List.mem_append_left _ h

/-- Every directory in the folded list ends up present. -/
theorem mem_foldl_insertDir_of_mem (l : List (List String))
    (acc : List (List String)) (x : List String) (h : x ∈ l) :
    x ∈ l.foldl insertDir acc := by
  induction l generalizing acc with
  | nil => cases h
  | cons d l ih =>
    rw [List.foldl_cons]
    rcases List.mem_cons.mp h with rfl | h1
    · apply mem_foldl_insertDir_of_mem_acc
      unfold insertDir
      split
      · assumption
      · exact List.mem_append_right _ (List.mem_singleton.mpr rfl)
    · exact ih _ h1

/-- C9: The fetch cycles for the Large and Small products are identical up
to their parameters: both request the same station identifier `"X009"`, the
same five variable names, and the same provider settings, differing only in
the product-type selector, the filename prefix (`L_` vs `S_` at the head of
the format string), and the output subdirectory (`MOSMIX-L` vs `MOSMIX-S`). -/
theorem claim_C9_fetchers_identical_up_to_params :
    fetch_L_weather = fetch_product paramsL ∧
    fetch_S_weather = fetch_product paramsS ∧
    paramsL.fmt = "L_" ++ "%Y_%m_%d_%H_%M_%S" ∧
    paramsS.fmt = "S_" ++ "%Y_%m_%d_%H_%M_%S" ∧
    paramsL.subdir = "MOSMIX-L" ∧
    paramsS.subdir = "MOSMIX-S" ∧
    paramsL.mosmix_type = MosmixType.LARGE ∧
    paramsS.mosmix_type = MosmixType.SMALL ∧
    mkStations MosmixType.LARGE
      = { mkStations MosmixType.SMALL with
          request := { (mkStations MosmixType.SMALL).request with
                       mosmix_type := MosmixType.LARGE } } ∧
    (mkStations MosmixType.LARGE).station_id = ["X009"] ∧
    (mkStations MosmixType.LARGE).request.parameter
      = ["radiation_global", "cloud_cover_between_2_to_7_km",
         "cloud_cover_below_1000_ft", "FF", "TTT"] ∧
    (mkStations MosmixType.LARGE).request.settings
      = (mkStations MosmixType.SMALL).request.settings :=
  ⟨funext fun q => funext fun b => funext fun f => fetch_L_eq_product q b f,
   funext fun q => funext fun b => funext fun f => fetch_S_eq_product q b f,
   rfl, rfl, rfl, rfl, rfl, rfl, rfl, rfl, rfl, rfl⟩

/-- C10: The output-directory resolver performs no validation of its
product-type argument: for every string `s` (not only `MOSMIX-L` or
`MOSMIX-S`), `get_output_dir` returns the join of the base directory with
`s`, after creating that directory (and any missing parents) without error
even if it already exists. -/
theorem claim_C10_no_validation_get_output_dir (base : List String)
    (s : String) (fs : List (List String)) :
    ∃ fs', get_output_dir base s fs = .ok (base ++ [s], fs') ∧
      base ++ [s] ∈ fs' ∧ (∀ d ∈ fs, d ∈ fs') ∧
      (∀ pre, pre <+: base ++ [s] → pre ∈ fs') := by
  refine ⟨_, get_output_dir_eq base s fs, ?_, ?_, ?_⟩
  · exact mem_foldl_insertDir_of_mem _ fs _
      ((List.mem_inits _ _).mpr ⟨[], List.append_nil _⟩)
  · exact fun d hd => mem_foldl_insertDir_of_mem_acc _ _ _ hd
  · exact fun pre hp => mem_foldl_insertDir_of_mem _ _ _ ((List.mem_inits _ _).mpr hp)

/-- Witness for C10: a product-type string that is neither `MOSMIX-L` nor
`MOSMIX-S`, on a directory state where the target already exists. -/
theorem claim_C10_witness :
    ∃ fs', get_output_dir ["home", "mosmix_data"] "whatever" [["home", "mosmix_data", "whatever"]]
        = .ok (["home", "mosmix_data"] ++ ["whatever"], fs') ∧
      ["home", "mosmix_data"] ++ ["whatever"] ∈ fs' ∧
      (∀ d ∈ [["home", "mosmix_data", "whatever"]], d ∈ fs') ∧
      (∀ pre, pre <+: ["home", "mosmix_data"] ++ ["whatever"] → pre ∈ fs') :=
  claim_C10_no_validation_get_output_dir ["home", "mosmix_data"] "whatever"
    [["home", "mosmix_data", "whatever"]]

/-- C5: For every dataset with a non-empty first row, the persisted file's
path equals `base/MOSMIX-L/L_YYYY_MM_DD_HH_mm_ss.xlsx` where the six numeric
components are the first row's timestamp zero-padded; rows after the first
and the dataset's length have no effect on the path (the remaining rows
`rest` are universally quantified and absent from the path), and the current
wall-clock time is never used (the embedding of the fetch cycle takes no
clock input at all). Stated for the MOSMIX-L fetch; the MOSMIX-S fetch is
the same cycle at the `S_`/`MOSMIX-S` parameters by C9. -/
theorem claim_C5_filename_from_first_row
    (q : StationsRequest → Except PyExc (List Row)) (base : List String)
    (fs : List (List String)) (r0 : Row) (rest : List Row)
    (hq : q (mkStations MosmixType.LARGE) = .ok (r0 :: rest)) :
    ∃ out, fetch_L_weather q base fs = .ok out ∧
      out.path = base ++ ["MOSMIX-L",
        "L_" ++ pad4 r0.date.wall.year ++ "_" ++ pad2 r0.date.wall.month ++ "_"
          ++ pad2 r0.date.wall.day ++ "_" ++ pad2 r0.date.wall.hour ++ "_"
          ++ pad2 r0.date.wall.minute ++ "_" ++ pad2 r0.date.wall.second ++ ".xlsx"] := by
  rw [fetch_L_eq_product]
  refine ⟨_, fetch_product_ok paramsL q base fs r0 rest hq, ?_⟩
  show base ++ ["MOSMIX-L", strftime "L_%Y_%m_%d_%H_%M_%S" r0.date.wall ++ ".xlsx"] = _
  rw [strftime_L_spec]

/-- Witness for C5: a concrete provider dataset with two rows whose first
row is timestamped 2024-03-01 09:05:07. -/
theorem claim_C5_witness :
    ∃ out, fetch_L_weather
        (fun _ => .ok [⟨⟨⟨2024, 3, 1, 9, 5, 7⟩, some 0⟩, [("TTT", "280.1")]⟩,
                       ⟨⟨⟨2024, 3, 1, 10, 5, 7⟩, some 0⟩, [("TTT", "281.2")]⟩])
        ["home", "mosmix_data"] [] = .ok out ∧
      out.path = ["home", "mosmix_data"] ++ ["MOSMIX-L",
        "L_" ++ pad4 2024 ++ "_" ++ pad2 3 ++ "_" ++ pad2 1 ++ "_" ++ pad2 9 ++ "_"
          ++ pad2 5 ++ "_" ++ pad2 7 ++ ".xlsx"] :=
  claim_C5_filename_from_first_row
    (fun _ => .ok [⟨⟨⟨2024, 3, 1, 9, 5, 7⟩, some 0⟩, [("TTT", "280.1")]⟩,
                   ⟨⟨⟨2024, 3, 1, 10, 5, 7⟩, some 0⟩, [("TTT", "281.2")]⟩])
    ["home", "mosmix_data"] []
    ⟨⟨⟨2024, 3, 1, 9, 5, 7⟩, some 0⟩, [("TTT", "280.1")]⟩
    [⟨⟨⟨2024, 3, 1, 10, 5, 7⟩, some 0⟩, [("TTT", "281.2")]⟩] rfl

/-- C6: Path resolution is deterministic: for every (productKind, timestamp)
pair, resolving yields the identical path across fetch cycles — here two
MOSMIX-L cycles with different providers, directory states and trailing rows
but an identical first-row wall-clock timestamp produce equal paths, and the
second export overwrites the first at that path with no collision avoidance
(the write is unconditional). -/
theorem claim_C6_deterministic_overwrite
    (q1 q2 : StationsRequest → Except PyExc (List Row)) (base : List String)
    (fs1 fs2 : List (List String)) (r1 r2 : Row) (rest1 rest2 : List Row)
    (h1 : q1 (mkStations MosmixType.LARGE) = .ok (r1 :: rest1))
    (h2 : q2 (mkStations MosmixType.LARGE) = .ok (r2 :: rest2))
    (hw : r1.date.wall = r2.date.wall) :
    ∃ o1 o2, fetch_L_weather q1 base fs1 = .ok o1 ∧
      fetch_L_weather q2 base fs2 = .ok o2 ∧
      o1.path = o2.path ∧
      (∀ fsys : List String → Option (List Row × Bool × Bool),
        writeFile (writeFile fsys o1) o2 o1.path = some (o2.df, o2.header, o2.index)) := by
  rw [fetch_L_eq_product, fetch_L_eq_product]
  refine ⟨_, _, fetch_product_ok paramsL q1 base fs1 r1 rest1 h1,
    fetch_product_ok paramsL q2 base fs2 r2 rest2 h2, ?_, ?_⟩
  · show base ++ ["MOSMIX-L", strftime "L_%Y_%m_%d_%H_%M_%S" r1.date.wall ++ ".xlsx"]
      = base ++ ["MOSMIX-L", strftime "L_%Y_%m_%d_%H_%M_%S" r2.date.wall ++ ".xlsx"]
    rw [hw]
  · intro fsys
    show (if base ++ ["MOSMIX-L", strftime "L_%Y_%m_%d_%H_%M_%S" r1.date.wall ++ ".xlsx"]
          = base ++ ["MOSMIX-L", strftime "L_%Y_%m_%d_%H_%M_%S" r2.date.wall ++ ".xlsx"]
        then _ else _) = _
    rw [hw, if_pos rfl]

/-- Witness for C6: two cycles whose datasets differ in length, trailing
rows and directory state but share the first-row timestamp. -/
theorem claim_C6_witness :
    ∃ o1 o2, fetch_L_weather
        (fun _ => .ok [⟨⟨⟨2024, 3, 1, 10, 0, 0⟩, some 0⟩, []⟩])
        ["base"] [] = .ok o1 ∧
      fetch_L_weather
        (fun _ => .ok [⟨⟨⟨2024, 3, 1, 10, 0, 0⟩, some 60⟩, [("FF", "3.2")]⟩,
                       ⟨⟨⟨2024, 3, 1, 11, 0, 0⟩, some 60⟩, []⟩])
        ["base"] [["base"]] = .ok o2 ∧
      o1.path = o2.path ∧
      (∀ fsys : List String → Option (List Row × Bool × Bool),
        writeFile (writeFile fsys o1) o2 o1.path = some (o2.df, o2.header, o2.index)) :=
  claim_C6_deterministic_overwrite
    (fun _ => .ok [⟨⟨⟨2024, 3, 1, 10, 0, 0⟩, some 0⟩, []⟩])
    (fun _ => .ok [⟨⟨⟨2024, 3, 1, 10, 0, 0⟩, some 60⟩, [("FF", "3.2")]⟩,
                   ⟨⟨⟨2024, 3, 1, 11, 0, 0⟩, some 60⟩, []⟩])
    ["base"] [] [["base"]]
    ⟨⟨⟨2024, 3, 1, 10, 0, 0⟩, some 0⟩, []⟩
    ⟨⟨⟨2024, 3, 1, 10, 0, 0⟩, some 60⟩, [("FF", "3.2")]⟩
    [] [⟨⟨⟨2024, 3, 1, 11, 0, 0⟩, some 60⟩, []⟩] rfl rfl rfl

/-- C7: For every retrieved dataset, the timestamp column is normalized to a
timezone-naive representation before filename derivation and export: the
exported table is the row-wise normalization of the retrieved rows, every
exported timestamp carries no timezone annotation, every wall-clock value is
preserved unchanged, and the filename is derived from the normalized first
row. Stated for both product kinds. -/
theorem claim_C7_normalize_before_export
    (q : StationsRequest → Except PyExc (List Row)) (base : List String)
    (fs : List (List String)) (r0 r0' : Row) (rest rest' : List Row)
    (hL : q (mkStations MosmixType.LARGE) = .ok (r0 :: rest))
    (hS : q (mkStations MosmixType.SMALL) = .ok (r0' :: rest')) :
    ∃ oL oS, fetch_L_weather q base fs = .ok oL ∧
      fetch_S_weather q base fs = .ok oS ∧
      oL.df = (r0 :: rest).map normalizeRow ∧
      oS.df = (r0' :: rest').map normalizeRow ∧
      (∀ r ∈ oL.df, r.date.tz = none) ∧
      (∀ r ∈ oS.df, r.date.tz = none) ∧
      oL.df.map (fun r => r.date.wall) = (r0 :: rest).map (fun r => r.date.wall) ∧
      oS.df.map (fun r => r.date.wall) = (r0' :: rest').map (fun r => r.date.wall) ∧
      oL.path = base ++ ["MOSMIX-L",
        strftime "L_%Y_%m_%d_%H_%M_%S" (tz_localize_none r0.date).wall ++ ".xlsx"] ∧
      oS.path = base ++ ["MOSMIX-S",
        strftime "S_%Y_%m_%d_%H_%M_%S" (tz_localize_none r0'.date).wall ++ ".xlsx"] := by
  rw [fetch_L_eq_product, fetch_S_eq_product]
  refine ⟨_, _, fetch_product_ok paramsL q base fs r0 rest hL,
    fetch_product_ok paramsS q base fs r0' rest' hS,
    rfl, rfl, ?_, ?_, ?_, ?_, rfl, rfl⟩
  · intro r hr
    rcases List.mem_map.mp hr with ⟨x, _, rfl⟩
    rfl
  · intro r hr
    rcases List.mem_map.mp hr with ⟨x, _, rfl⟩
    rfl
  · show List.map (fun r => r.date.wall) (List.map normalizeRow (r0 :: rest))
        = List.map (fun r => r.date.wall) (r0 :: rest)
    rw [List.map_map]
    rfl
  · show List.map (fun r => r.date.wall) (List.map normalizeRow (r0' :: rest'))
        = List.map (fun r => r.date.wall) (r0' :: rest')
    rw [List.map_map]
    rfl

/-- Witness for C7: concrete one-row datasets with UTC-annotated timestamps
for both product kinds. -/
theorem claim_C7_witness :
    ∃ oL oS : FetchOutcome, fetch_L_weather
        (fun st => if st.request.mosmix_type = MosmixType.LARGE
          then .ok [⟨⟨⟨2024, 3, 1, 10, 0, 0⟩, some 0⟩, []⟩]
          else .ok [⟨⟨⟨2024, 3, 1, 12, 30, 0⟩, some 0⟩, []⟩])
        ["base"] [] = .ok oL ∧
      fetch_S_weather
        (fun st => if st.request.mosmix_type = MosmixType.LARGE
          then .ok [⟨⟨⟨2024, 3, 1, 10, 0, 0⟩, some 0⟩, []⟩]
          else .ok [⟨⟨⟨2024, 3, 1, 12, 30, 0⟩, some 0⟩, []⟩])
        ["base"] [] = .ok oS ∧
      oL.df = [⟨⟨⟨2024, 3, 1, 10, 0, 0⟩, some 0⟩, []⟩].map normalizeRow ∧
      oS.df = [⟨⟨⟨2024, 3, 1, 12, 30, 0⟩, some 0⟩, []⟩].map normalizeRow ∧
      (∀ r ∈ oL.df, r.date.tz = none) ∧
      (∀ r ∈ oS.df, r.date.tz = none) ∧
      oL.df.map (fun r => r.date.wall)
        = ([⟨⟨⟨2024, 3, 1, 10, 0, 0⟩, some 0⟩, []⟩] : List Row).map (fun r => r.date.wall) ∧
      oS.df.map (fun r => r.date.wall)
        = ([⟨⟨⟨2024, 3, 1, 12, 30, 0⟩, some 0⟩, []⟩] : List Row).map (fun r => r.date.wall) ∧
      oL.path = ["base"] ++ ["MOSMIX-L",
        strftime "L_%Y_%m_%d_%H_%M_%S"
          (tz_localize_none ⟨⟨2024, 3, 1, 10, 0, 0⟩, some 0⟩).wall ++ ".xlsx"] ∧
      oS.path = ["base"] ++ ["MOSMIX-S",
        strftime "S_%Y_%m_%d_%H_%M_%S"
          (tz_localize_none ⟨⟨2024, 3, 1, 12, 30, 0⟩, some 0⟩).wall ++ ".xlsx"] :=
  claim_C7_normalize_before_export
    (fun st => if st.request.mosmix_type = MosmixType.LARGE
      then .ok [⟨⟨⟨2024, 3, 1, 10, 0, 0⟩, some 0⟩, []⟩]
      else .ok [⟨⟨⟨2024, 3, 1, 12, 30, 0⟩, some 0⟩, []⟩])
    ["base"] []
    ⟨⟨⟨2024, 3, 1, 10, 0, 0⟩, some 0⟩, []⟩
    ⟨⟨⟨2024, 3, 1, 12, 30, 0⟩, some 0⟩, []⟩
    [] [] rfl rfl

/-- C8: For every successful fetch cycle of either product kind, the full
normalized dataset is exported to the resolved path with a header row
included and without a separate row-index column: the export call records
`header = true` and `index = false`, and the exported table is the whole
normalized dataset. -/
theorem claim_C8_export_header_no_index
    (q : StationsRequest → Except PyExc (List Row)) (base : List String)
    (fs : List (List String)) (r0 r0' : Row) (rest rest' : List Row)
    (hL : q (mkStations MosmixType.LARGE) = .ok (r0 :: rest))
    (hS : q (mkStations MosmixType.SMALL) = .ok (r0' :: rest')) :
    ∃ oL oS, fetch_L_weather q base fs = .ok oL ∧
      fetch_S_weather q base fs = .ok oS ∧
      oL.header = true ∧ oL.index = false ∧ oL.df = (r0 :: rest).map normalizeRow ∧
      oS.header = true ∧ oS.index = false ∧ oS.df = (r0' :: rest').map normalizeRow := by
  rw [fetch_L_eq_product, fetch_S_eq_product]
  exact ⟨_, _, fetch_product_ok paramsL q base fs r0 rest hL,
    fetch_product_ok paramsS q base fs r0' rest' hS,
    rfl, rfl, rfl, rfl, rfl, rfl⟩

/-- Witness for C8: a provider returning two-row datasets for both kinds. -/
theorem claim_C8_witness :
    ∃ oL oS, fetch_L_weather
        (fun _ => .ok [⟨⟨⟨2025, 12, 31, 23, 59, 59⟩, none⟩, []⟩,
                       ⟨⟨⟨2026, 1, 1, 0, 59, 59⟩, none⟩, []⟩])
        ["base"] [] = .ok oL ∧
      fetch_S_weather
        (fun _ => .ok [⟨⟨⟨2025, 12, 31, 23, 59, 59⟩, none⟩, []⟩,
                       ⟨⟨⟨2026, 1, 1, 0, 59, 59⟩, none⟩, []⟩])
        ["base"] [] = .ok oS ∧
      oL.header = true ∧ oL.index = false ∧
      oL.df = [⟨⟨⟨2025, 12, 31, 23, 59, 59⟩, none⟩, []⟩,
               ⟨⟨⟨2026, 1, 1, 0, 59, 59⟩, none⟩, []⟩].map normalizeRow ∧
      oS.header = true ∧ oS.index = false ∧
      oS.df = [⟨⟨⟨2025, 12, 31, 23, 59, 59⟩, none⟩, []⟩,
               ⟨⟨⟨2026, 1, 1, 0, 59, 59⟩, none⟩, []⟩].map normalizeRow :=
  claim_C8_export_header_no_index
    (fun _ => .ok [⟨⟨⟨2025, 12, 31, 23, 59, 59⟩, none⟩, []⟩,
                   ⟨⟨⟨2026, 1, 1, 0, 59, 59⟩, none⟩, []⟩])
    ["base"] []
    ⟨⟨⟨2025, 12, 31, 23, 59, 59⟩, none⟩, []⟩
    ⟨⟨⟨2025, 12, 31, 23, 59, 59⟩, none⟩, []⟩
    [⟨⟨⟨2026, 1, 1, 0, 59, 59⟩, none⟩, []⟩]
    [⟨⟨⟨2026, 1, 1, 0, 59, 59⟩, none⟩, []⟩] rfl rfl

/-- C1 (amended): errors raised during a job's run are NOT caught.
`main`'s only handler is `except KeyboardInterrupt`, and neither fetch
function contains any error handling, so: (a) a job raising any exception
other than `KeyboardInterrupt` makes the loop iteration terminate the
process with that exception instead of continuing; (b) a
`KeyboardInterrupt` raised during a job is caught and stops the loop
cleanly with the stop message; (c) an operator interrupt at the sleep
boundary stops the loop cleanly with the stop message; (d) the fetch
functions propagate every provider error unchanged. -/
theorem claim_C1_amended_errors_uncaught (beh : Nat → Except PyExc Unit)
    (dur : Nat → Nat) (s : SchedState) (ent : ScheduleEntry) (exc : PyExc)
    (hents : s.entries = [ent]) (hdue : ent.nextDue ≤ s.now)
    (hb : beh ent.jobId = .error exc) :
    (exc ≠ PyExc.keyboardInterrupt → loopIter beh dur false s = .crash exc) ∧
    (exc = PyExc.keyboardInterrupt → loopIter beh dur false s = .stop stopMessage) ∧
    loopIter beh dur true s = .stop stopMessage ∧
    (∀ (q : StationsRequest → Except PyExc (List Row)) (base : List String)
        (fs : List (List String)), (∀ st, q st = .error exc) →
      fetch_L_weather q base fs = .error exc ∧
      fetch_S_weather q base fs = .error exc) := by
  have hrun : runPendingE beh dur s.now s.trace s.entries = .error exc := by
    rw [hents, runPendingE, if_pos hdue, hb]
  refine ⟨?_, ?_, ?_, ?_⟩
  · intro hne
    rw [loopIter, if_neg Bool.false_ne_true, hrun]
    cases exc with
    | keyboardInterrupt => exact absurd rfl hne
    | providerError => rfl
    | stopIteration => rfl
    | indexError => rfl
    | fileExistsError => rfl
  · intro heq
    subst heq
    rw [loopIter, if_neg Bool.false_ne_true, hrun]
  · rw [loopIter, if_pos rfl]
  · intro q base fs hq
    rw [fetch_L_eq_product, fetch_S_eq_product]
    exact ⟨fetch_product_err paramsL q base fs exc (hq _),
      fetch_product_err paramsS q base fs exc (hq _)⟩

/-- Witness for C1 (amended): a single registered due job whose run raises a
provider (network) error. -/
theorem claim_C1_witness :
    (PyExc.providerError ≠ PyExc.keyboardInterrupt →
      loopIter (fun _ => Except.error PyExc.providerError) (fun _ => 0) false
        ⟨15, [], [⟨15, 15, 1⟩]⟩ = .crash PyExc.providerError) ∧
    (PyExc.providerError = PyExc.keyboardInterrupt →
      loopIter (fun _ => Except.error PyExc.providerError) (fun _ => 0) false
        ⟨15, [], [⟨15, 15, 1⟩]⟩ = .stop stopMessage) ∧
    loopIter (fun _ => Except.error PyExc.providerError) (fun _ => 0) true
      ⟨15, [], [⟨15, 15, 1⟩]⟩ = .stop stopMessage ∧
    (∀ (q : StationsRequest → Except PyExc (List Row)) (base : List String)
        (fs : List (List String)), (∀ st, q st = .error PyExc.providerError) →
      fetch_L_weather q base fs = .error PyExc.providerError ∧
      fetch_S_weather q base fs = .error PyExc.providerError) :=
  claim_C1_amended_errors_uncaught (fun _ => Except.error PyExc.providerError)
    (fun _ => 0) ⟨15, [], [⟨15, 15, 1⟩]⟩ ⟨15, 15, 1⟩ PyExc.providerError
    rfl (by decide) rfl

/-- Counterexample to C1 as stated: with every provider call failing with a
network error, `main`'s loop does not continue to the next poll cycle — it
terminates with the uncaught error at the first due-time (minute 15, the
MOSMIX-S job), which is not the clean operator-interrupt stop. -/
theorem claim_C1_counterexample :
    mainLoop (fun _ => Except.error PyExc.providerError) (fun _ => 0)
        (fun _ => false) 20 initSchedState
      = LoopResult.crashed PyExc.providerError ∧
    fetch_L_weather (fun _ => Except.error PyExc.providerError) ["mosmix_data"] []
      = Except.error PyExc.providerError ∧
    LoopResult.crashed PyExc.providerError ≠ LoopResult.stopped stopMessage := by
  exact ⟨by decide, rfl, by decide⟩

/-- C2 (amended): a provider dataset with zero rows makes the fetch cycle
raise `IndexError` at filename derivation — no file is written for that
cycle (the cycle produces no export outcome) — but the failure is not
logged-and-contained: the exception propagates through the scheduling loop
and terminates the process, so no next scheduled due-time retry occurs. -/
theorem claim_C2_amended_empty_dataset_uncontained
    (q : StationsRequest → Except PyExc (List Row)) (base : List String)
    (fs : List (List String)) (dur : Nat → Nat) (s : SchedState)
    (ent : ScheduleEntry)
    (hq : ∀ st, q st = .ok ([] : List Row))
    (hents : s.entries = [ent]) (hdue : ent.nextDue ≤ s.now) :
    fetch_L_weather q base fs = .error PyExc.indexError ∧
    fetch_S_weather q base fs = .error PyExc.indexError ∧
    loopIter (fun _ => (fetch_L_weather q base fs).map (fun _ => ())) dur false s
      = .crash PyExc.indexError := by
  have hL : fetch_L_weather q base fs = .error PyExc.indexError := by
    rw [fetch_L_eq_product]
    exact fetch_product_empty paramsL q base fs (hq _)
  have hS : fetch_S_weather q base fs = .error PyExc.indexError := by
    rw [fetch_S_eq_product]
    exact fetch_product_empty paramsS q base fs (hq _)
  refine ⟨hL, hS, ?_⟩
  rw [loopIter, if_neg Bool.false_ne_true, hents, runPendingE, if_pos hdue]
  simp only [hL, Except.map]

/-- Witness for C2 (amended): a provider returning the empty dataset with a
single registered due job. -/
theorem claim_C2_witness :
    fetch_L_weather (fun _ => Except.ok ([] : List Row)) ["d"] []
        = .error PyExc.indexError ∧
    fetch_S_weather (fun _ => Except.ok ([] : List Row)) ["d"] []
        = .error PyExc.indexError ∧
    loopIter (fun _ => (fetch_L_weather (fun _ => Except.ok ([] : List Row)) ["d"] []).map
        (fun _ => ())) (fun _ => 0) false ⟨15, [], [⟨15, 15, 1⟩]⟩
      = .crash PyExc.indexError :=
  claim_C2_amended_empty_dataset_uncontained (fun _ => Except.ok ([] : List Row))
    ["d"] [] (fun _ => 0) ⟨15, [], [⟨15, 15, 1⟩]⟩ ⟨15, 15, 1⟩
    (fun _ => rfl) rfl (by decide)

/-- Counterexample to C2 as stated: with the provider returning zero rows,
the cycle is abandoned with no file written (the fetch yields only an
`IndexError`), but the cycle's failure is not merely logged — running
`main`'s loop terminates with the uncaught `IndexError`, so the next
scheduled due-time never retries. -/
theorem claim_C2_counterexample :
    fetch_L_weather (fun _ => Except.ok ([] : List Row)) ["mosmix_data"] []
        = Except.error PyExc.indexError ∧
    mainLoop (fun _ => (fetch_L_weather (fun _ => Except.ok ([] : List Row))
          ["mosmix_data"] []).map (fun _ => ()))
        (fun _ => 0) (fun _ => false) 20 initSchedState
      = LoopResult.crashed PyExc.indexError := by
  exact ⟨rfl, by decide⟩

/-- C3: Whenever the two registered jobs are both due in the same poll
cycle, both are invoked within that cycle, sequentially on the single
thread, in registration order, and no job is re-entered before its current
invocation finishes: the iteration invokes the first-registered entry at the
tick time, the second exactly when the first finishes, records exactly one
invocation per entry, and reschedules each from its own completion time. -/
theorem claim_C3_due_jobs_sequential_registration_order
    (beh : Nat → Except PyExc Unit) (dur : Nat → Nat) (s : SchedState)
    (e1 e2 : ScheduleEntry) (hents : s.entries = [e1, e2])
    (h1 : e1.nextDue ≤ s.now) (h2 : e2.nextDue ≤ s.now)
    (hb1 : beh e1.jobId = .ok ()) (hb2 : beh e2.jobId = .ok ()) :
    loopIter beh dur false s = .next
      ⟨s.now + dur e1.jobId + dur e2.jobId + 1,
       ⟨s.now + dur e1.jobId, s.now + dur e1.jobId + dur e2.jobId, e2.jobId⟩ ::
         ⟨s.now, s.now + dur e1.jobId, e1.jobId⟩ :: s.trace,
       [⟨e1.interval, s.now + dur e1.jobId + e1.interval, e1.jobId⟩,
        ⟨e2.interval, s.now + dur e1.jobId + dur e2.jobId + e2.interval, e2.jobId⟩]⟩ := by
  have h2' : e2.nextDue ≤ s.now + dur e1.jobId := le_trans h2 (Nat.le_add_right _ _)
  have hrun : runPendingE beh dur s.now s.trace [e1, e2]
      = .ok (s.now + dur e1.jobId + dur e2.jobId,
             ⟨s.now + dur e1.jobId, s.now + dur e1.jobId + dur e2.jobId, e2.jobId⟩ ::
               ⟨s.now, s.now + dur e1.jobId, e1.jobId⟩ :: s.trace,
             [⟨e1.interval, s.now + dur e1.jobId + e1.interval, e1.jobId⟩,
              ⟨e2.interval, s.now + dur e1.jobId + dur e2.jobId + e2.interval, e2.jobId⟩]) := by
    rw [runPendingE, if_pos h1, hb1, runPendingE, if_pos h2', hb2, runPendingE]
  rw [loopIter, if_neg Bool.false_ne_true, hents, hrun]

/-- Witness for C3: both entries of the schedule table due at minute 30,
with jobs taking two minutes each. -/
theorem claim_C3_witness :
    loopIter (fun _ => Except.ok ()) (fun _ => 2) false
        ⟨30, [], [⟨30, 30, 0⟩, ⟨15, 30, 1⟩]⟩ = .next
      ⟨30 + 2 + 2 + 1,
       ⟨30 + 2, 30 + 2 + 2, 1⟩ :: ⟨30, 30 + 2, 0⟩ :: [],
       [⟨30, 30 + 2 + 30, 0⟩, ⟨15, 30 + 2 + 2 + 15, 1⟩]⟩ :=
  claim_C3_due_jobs_sequential_registration_order (fun _ => Except.ok ())
    (fun _ => 2) ⟨30, [], [⟨30, 30, 0⟩, ⟨15, 30, 1⟩]⟩ ⟨30, 30, 0⟩ ⟨15, 30, 1⟩
    rfl (by decide) (by decide) rfl rfl

/-- C4: registration sets a job's first due-time to now + interval, each run
reschedules from the run's completion time plus the interval (not the
previous due-time), and consequently in every reachable state the scheduler
invariant holds: along each entry's invocation history (with the pending
due-time prepended as a virtual next invocation), every invocation starts at
least `interval` minutes after the previous invocation's completion — the
Scheduler never invokes a job before its registered interval has elapsed
since the previous run's completion. The registered (job, interval) table is
also preserved verbatim. -/
theorem claim_C4_drift_forward_policy (beh : Nat → Except PyExc Unit)
    (dur : Nat → Nat) (iv1 j1 iv2 j2 t0 : Nat) (hj : j1 ≠ j2) (s : SchedState)
    (h : Reachable beh dur (register iv2 j2 (register iv1 j1 ⟨t0, [], []⟩)) s) :
    (register iv2 j2 (register iv1 j1 ⟨t0, [], []⟩)).entries
        = [⟨iv1, t0 + iv1, j1⟩, ⟨iv2, t0 + iv2, j2⟩] ∧
    Inv s ∧
    s.entries.map (fun e => (e.jobId, e.interval)) = [(j1, iv1), (j2, iv2)] := by
  have hInit : Inv (register iv2 j2 (register iv1 j1 ⟨t0, [], []⟩)) := by
    constructor
    · simp [register, hj]
    · intro e he
      simp only [register, List.nil_append, List.cons_append, List.mem_cons,
        List.mem_singleton, List.not_mem_nil, or_false] at he
      rcases he with rfl | rfl
      · exact List.chain'_singleton _
      · exact List.chain'_singleton _
  obtain ⟨hInv, hmap⟩ := reachable_inv beh dur _ s hInit h
  refine ⟨by simp [register], hInv, ?_⟩
  rw [hmap]
  simp [register]

/-- Witness for C4: the two jobs of `main` registered at time 0, after one
loop iteration (which runs nothing, both due-times being in the future). -/
theorem claim_C4_witness :
    (register 15 1 (register 30 0 ⟨0, [], []⟩)).entries
        = [⟨30, 0 + 30, 0⟩, ⟨15, 0 + 15, 1⟩] ∧
    Inv ⟨1, [], [⟨30, 30, 0⟩, ⟨15, 15, 1⟩]⟩ ∧
    (SchedState.mk 1 [] [⟨30, 30, 0⟩, ⟨15, 15, 1⟩]).entries.map
        (fun e => (e.jobId, e.interval)) = [(0, 30), (1, 15)] :=
  claim_C4_drift_forward_policy (fun _ => Except.ok ()) (fun _ => 0) 30 0 15 1 0
    (by decide) ⟨1, [], [⟨30, 30, 0⟩, ⟨15, 15, 1⟩]⟩
    (Reachable.step (Reachable.refl _) (by decide))

end WeatherFetch
